import Mathlib

/-!
Shallow embedding of `wagtail/admin/utils.py`: the notification dispatcher
(`send_notification`), the recipient resolver (`users_with_page_permission`),
the mail wrapper (`send_mail`) and the permission decorators
(`user_passes_test` and friends).

External collaborators (ORM, template renderer, mail transport, locale
context) are modelled as explicit data: the database is a record of lists,
the renderer and the transport are oracle functions that may fail, and every
call to a collaborator is recorded in an event trace.  Python exceptions are
modelled with an explicit error type threaded through the computation;
Python local-variable semantics (`email_subject` may be referenced in the
`except` block before ever being assigned, raising `UnboundLocalError`) are
modelled with an `Option String` field of the dispatcher state.
-/

namespace Wagtail

/-- Per-user notification preferences and language, as stored on
`UserProfile` (`UserProfile.get_for_user(user)` /
`user.wagtail_userprofile`). -/
structure UserProfile where
  submitted_notifications : Bool
  approved_notifications : Bool
  rejected_notifications : Bool
  preferred_language : String
  deriving Repr, DecidableEq

/-- A user of the external identity store.  `email = ""` models a missing
email address (Python falsiness of the empty string). `groups` is the list
of group ids the user belongs to. -/
structure User where
  pk : Nat
  email : String
  is_active : Bool
  is_superuser : Bool
  groups : List Nat
  profile : UserProfile
  deriving Repr, DecidableEq

/-- A content node: its own id plus the ids of its ancestors
(`page.get_ancestors()`). -/
structure Page where
  id : Nat
  ancestors : List Nat
  deriving Repr, DecidableEq

/-- A `GroupPagePermission` record: group `group` holds permission
`permission_type` on the page with id `page`. -/
structure GroupPagePermission where
  group : Nat
  permission_type : String
  page : Nat
  deriving Repr, DecidableEq

/-- A `PageRevision` row: id, the page it belongs to, and the submitting
user. -/
structure PageRevision where
  id : Nat
  page : Page
  user : User
  deriving Repr, DecidableEq

/-- The Django settings consulted by this module.  `none` models an absent
setting (`hasattr` false / `getattr` falling back to its default). -/
structure Settings where
  WAGTAILADMIN_NOTIFICATION_INCLUDE_SUPERUSERS : Option Bool
  WAGTAILADMIN_NOTIFICATION_USE_HTML : Option Bool
  WAGTAILADMIN_NOTIFICATION_FROM_EMAIL : Option String
  DEFAULT_FROM_EMAIL : Option String
  deriving Repr, DecidableEq

/-- The slice of the database the module reads. -/
structure Database where
  users : List User
  group_page_permissions : List GroupPagePermission
  page_revisions : List PageRevision
  deriving Repr, DecidableEq

/-- `getattr(profile, notification + '_notifications')` for the three
recognized notification kinds. -/
def UserProfile.notifications_flag (p : UserProfile) (kind : String) : Bool :=
  if kind == "submitted" then p.submitted_notifications
  else if kind == "approved" then p.approved_notifications
  else p.rejected_notifications

/-! ## Recipient resolver: `users_with_page_permission` -/

/-- The `GroupPagePermission` records of the given type that apply to the
page or one of its ancestors (the `perm` queryset). -/
def matching_grants (db : Database) (page : Page) (permission_type : String) :
    List GroupPagePermission :=
  let ancestors_and_self := page.ancestors ++ [page.id]
  db.group_page_permissions.filter
    (fun gpp => gpp.permission_type == permission_type &&
      ancestors_and_self.contains gpp.page)

/-- Whether one of the user's groups holds one of the matching grants
(the `Q(groups__page_permissions__in=perm)` condition). -/
def has_matching_group_grant (db : Database) (page : Page)
    (permission_type : String) (u : User) : Bool :=
  u.groups.any (fun g =>
    (matching_grants db page permission_type).any (fun gpp => gpp.group == g))

/-- Deduplicate a user list by primary key, keeping the first occurrence of
each pk (the `.distinct()` call on the queryset). -/
def dedupByPkAux : List Nat → List User → List User
  | _, [] => []
  | seen, u :: rest =>
    if seen.contains u.pk then dedupByPkAux seen rest
    else u :: dedupByPkAux (u.pk :: seen) rest

def dedupByPk (l : List User) : List User := dedupByPkAux [] l

/-- `users_with_page_permission(page, permission_type, include_superusers)`:
active users that either belong to a group holding a matching grant or
(when `include_superusers`) are superusers, deduplicated. -/
def users_with_page_permission (db : Database) (page : Page)
    (permission_type : String) (include_superusers : Bool) : List User :=
  dedupByPk ((db.users.filter (fun u => u.is_active)).filter
    (fun u => has_matching_group_grant db page permission_type u ||
      (include_superusers && u.is_superuser)))

/-! ## Mail wrapper: `send_mail` -/

/-- The `EmailMultiAlternatives` message that `send_mail` builds and hands to
the transport. -/
structure Mail where
  subject : String
  message : String
  from_email : String
  to_addresses : List String
  auto_submitted_header : String
  html_alternative : Option String
  deriving Repr, DecidableEq

/-- `send_mail(subject, message, recipient_list, from_email, html_message=…)`:
resolves the sender address (argument if truthy, else
`WAGTAILADMIN_NOTIFICATION_FROM_EMAIL` if present, else `DEFAULT_FROM_EMAIL`
if present, else `'webmaster@localhost'`) and builds the message with the
`Auto-Submitted: auto-generated` header and the optional HTML alternative. -/
def send_mail (s : Settings) (subject message : String)
    (recipient_list : List String) (from_email : Option String)
    (html_message : Option String) : Mail :=
  let fe :=
    if (from_email.getD "") == "" then
      match s.WAGTAILADMIN_NOTIFICATION_FROM_EMAIL with
      | some a => a
      | none =>
        match s.DEFAULT_FROM_EMAIL with
        | some b => b
        | none => "webmaster@localhost"
    else from_email.getD ""
  { subject := subject
    message := message
    from_email := fe
    to_addresses := recipient_list
    auto_submitted_header := "auto-generated"
    html_alternative := html_message }

/-! ## Notification dispatcher: `send_notification` -/

/-- Observable calls to the external collaborators: a resolver query, a
template render (with the locale active at the time of the call), a
mail-transport call, and a `logger.exception` call (with the
`email_subject` value and recipient email it formats). -/
inductive Event where
  | resolverCall (pageId : Nat) (permission_type : String)
      (include_superusers : Bool)
  | renderCall (template : String) (userPk : Nat) (locale : String)
  | transportCall (mail : Mail)
  | logFailure (email_subject : String) (recipientEmail : String)
  deriving Repr, DecidableEq

/-- Python exceptions that reach this module's control flow. -/
inductive PyError where
  | DoesNotExist
  | RenderFailure (template : String)
  | SendFailure
  | UnboundLocalError
  deriving Repr, DecidableEq

/-- Oracles for the fallible external collaborators: `render t pk` is the
outcome of `render_to_string(t, context)` with `context['user']` the user
with pk `pk` (`none` models a raised exception), and `deliver m` is whether
`mail.send()` succeeds (`false` models a raised exception). -/
structure Oracles where
  render : String → Nat → Option String
  deliver : Mail → Bool

/-- Python `str.strip()`: remove leading and trailing whitespace. -/
def pyStrip (s : String) : String :=
  ⟨((s.data.dropWhile Char.isWhitespace).reverse.dropWhile
      Char.isWhitespace).reverse⟩

/-- The mutable state of one `send_notification` call: the active locale,
the event trace so far, `sent_count`, and the Python local `email_subject`
(`none` while not yet assigned in this function call). -/
structure DispatchState where
  locale : String
  events : List Event
  sent_count : Nat
  email_subject : Option String
  deriving Repr, DecidableEq

/-- `with override(lang): body` — set the active locale for the body and
restore the saved locale on exit, on the normal and the exceptional path
alike (the context-manager semantics of `django.utils.translation.override`). -/
def withOverride (lang : String) (st : DispatchState)
    (body : DispatchState → DispatchState × Except PyError α) :
    DispatchState × Except PyError α :=
  let saved := st.locale
  let r := body { st with locale := lang }
  ({ r.1 with locale := saved }, r.2)

/-- One `render_to_string(template, context)` call: record the call with the
currently active locale and consult the render oracle. -/
def renderStep (os : Oracles) (template : String) (pk : Nat)
    (st : DispatchState) : DispatchState × Option String :=
  ({ st with events := st.events ++ [Event.renderCall template pk st.locale] },
    os.render template pk)

/-- The body of the per-recipient `try:` block: render subject and text
under the recipient's preferred language, optionally render the HTML body
(after the `with` block, so under the restored locale), send the mail, and
bump `sent_count`.  An error result models a raised exception; state
changes made before the raise (trace, `email_subject`) persist. -/
def recipientTryBody (s : Settings) (os : Oracles) (notification : String)
    (recipient : User) (st : DispatchState) :
    DispatchState × Except PyError Unit :=
  let template_subject := "wagtailadmin/notifications/" ++ notification ++ "_subject.txt"
  let template_text := "wagtailadmin/notifications/" ++ notification ++ ".txt"
  let template_html := "wagtailadmin/notifications/" ++ notification ++ ".html"
  let r1 := withOverride recipient.profile.preferred_language st (fun st0 =>
    let a := renderStep os template_subject recipient.pk st0
    match a.2 with
    | none => (a.1, Except.error (PyError.RenderFailure template_subject))
    | some subj =>
      let stA := { a.1 with email_subject := some (pyStrip subj) }
      let b := renderStep os template_text recipient.pk stA
      match b.2 with
      | none => (b.1, Except.error (PyError.RenderFailure template_text))
      | some content => (b.1, Except.ok (pyStrip subj, pyStrip content)))
  match r1.2 with
  | Except.error e => (r1.1, Except.error e)
  | Except.ok (email_subject, email_content) =>
    let r2 :=
      if s.WAGTAILADMIN_NOTIFICATION_USE_HTML.getD false then
        let c := renderStep os template_html recipient.pk r1.1
        match c.2 with
        | none => (c.1, Except.error (PyError.RenderFailure template_html))
        | some h => (c.1, Except.ok (some h))
      else (r1.1, Except.ok none)
    match r2.2 with
    | Except.error e => (r2.1, Except.error e)
    | Except.ok html_message =>
      let mail := send_mail s email_subject email_content [recipient.email]
        none html_message
      let st3 := { r2.1 with events := r2.1.events ++ [Event.transportCall mail] }
      if os.deliver mail then
        ({ st3 with sent_count := st3.sent_count + 1 }, Except.ok ())
      else (st3, Except.error PyError.SendFailure)

/-- One loop iteration: the `try:` body wrapped in `except Exception:`.
The handler calls `logger.exception(..., email_subject, recipient.email)`;
when the local `email_subject` has never been assigned in this call, that
reference itself raises `UnboundLocalError`, which nothing catches. -/
def processRecipient (s : Settings) (os : Oracles) (notification : String)
    (recipient : User) (st : DispatchState) :
    DispatchState × Option PyError :=
  let r := recipientTryBody s os notification recipient st
  match r.2 with
  | Except.ok _ => (r.1, none)
  | Except.error _ =>
    match r.1.email_subject with
    | none => (r.1, some PyError.UnboundLocalError)
    | some subj =>
      ({ r.1 with
          events := r.1.events ++ [Event.logFailure subj recipient.email] },
        none)

/-- The `for recipient in email_recipients:` loop.  A `some` error is an
exception escaping the loop (and the function). -/
def sendLoop (s : Settings) (os : Oracles) (notification : String) :
    List User → DispatchState → DispatchState × Option PyError
  | [], st => (st, none)
  | recipient :: rest, st =>
    let r := processRecipient s os notification recipient st
    match r.2 with
    | none => sendLoop s os notification rest r.1
    | some e => (r.1, some e)

/-- The `email_recipients` list comprehension: keep recipients with a
truthy email, a pk different from `excluded_user_id`, and the per-kind
notification preference enabled. -/
def email_recipients_of (recipients : List User) (notification : String)
    (excluded_user_id : Nat) : List User :=
  recipients.filter (fun recipient =>
    recipient.email != "" && recipient.pk != excluded_user_id &&
      recipient.profile.notifications_flag notification)

/-- `send_notification(page_revision_id, notification, excluded_user_id)`.
Returns the Python return value (or the escaped exception) together with
the trace of collaborator calls.  `initial_locale` is the locale active
when the function is entered. -/
def send_notification (db : Database) (s : Settings) (os : Oracles)
    (page_revision_id : Nat) (notification : String)
    (excluded_user_id : Nat) (initial_locale : String) :
    Except PyError Bool × List Event :=
  match db.page_revisions.find? (fun r => r.id == page_revision_id) with
  | none => (Except.error PyError.DoesNotExist, [])
  | some revision =>
    let go := fun (recipients : List User) (events0 : List Event) =>
      let email_recipients :=
        email_recipients_of recipients notification excluded_user_id
      if email_recipients.isEmpty then (Except.ok true, events0)
      else
        let st0 : DispatchState :=
          { locale := initial_locale, events := events0, sent_count := 0,
            email_subject := none }
        let r := sendLoop s os notification email_recipients st0
        match r.2 with
        | none => (Except.ok (r.1.sent_count == email_recipients.length), r.1.events)
        | some e => (Except.error e, r.1.events)
    if notification == "submitted" then
      let include_superusers :=
        s.WAGTAILADMIN_NOTIFICATION_INCLUDE_SUPERUSERS.getD true
      go (users_with_page_permission db revision.page "publish"
          include_superusers)
        [Event.resolverCall revision.page.id "publish" include_superusers]
    else if notification == "rejected" || notification == "approved" then
      go [revision.user] []
    else (Except.ok false, [])

/-! ## Permission decorators: `user_passes_test` and friends -/

/-- A user as seen by the permission decorators: `has_perm` data plus the
policy answers are carried on the user directly, since the Django user and
policy objects are external collaborators queried through these two
methods only. -/
structure AuthUser where
  perms : List String
  deriving Repr, DecidableEq

def AuthUser.has_perm (u : AuthUser) (permission_name : String) : Bool :=
  u.perms.contains permission_name

/-- An incoming HTTP request: the authenticated user and whether
`request.is_ajax()` holds. -/
structure Request where
  user : AuthUser
  is_ajax : Bool
  deriving Repr, DecidableEq

/-- Responses a decorated view can produce.  `pdRaised` models the
`PermissionDenied` exception raised on AJAX requests; `redirectTo` models
`redirect('wagtailadmin_home')`. -/
inductive Response where
  | content (payload : Nat)
  | pdRaised
  | redirectTo (viewname : String)
  deriving Repr, DecidableEq

/-- `permission_denied(request)`: raise `PermissionDenied` for AJAX
requests, otherwise flash an error message and redirect home. -/
def permission_denied (request : Request) : Response :=
  if request.is_ajax then Response.pdRaised
  else Response.redirectTo "wagtailadmin_home"

/-- `user_passes_test(test)`: wrap a view so that it runs only when
`test(request.user)` holds, and otherwise answers with
`permission_denied(request)`.  `args` stands for the `*args, **kwargs`
forwarded unchanged. -/
def user_passes_test {α : Type} (test : AuthUser → Bool)
    (view_func : Request → α → Response) : Request → α → Response :=
  fun request args =>
    if test request.user then view_func request args
    else permission_denied request

/-- `permission_required(permission_name)`. -/
def permission_required {α : Type} (permission_name : String) :
    (Request → α → Response) → Request → α → Response :=
  user_passes_test (fun user => user.has_perm permission_name)

/-- `any_permission_required(*perms)`: pass if the user has any of the
permissions (the source's early-returning `for` loop). -/
def any_permission_required {α : Type} (perms : List String) :
    (Request → α → Response) → Request → α → Response :=
  user_passes_test (fun user => perms.any (fun perm => user.has_perm perm))

/-- The external permission-policy collaborator. -/
structure PermissionPolicy where
  user_has_permission : AuthUser → String → Bool
  user_has_any_permission : AuthUser → List String → Bool

/-- `PermissionPolicyChecker(policy)`. -/
structure PermissionPolicyChecker where
  policy : PermissionPolicy

def PermissionPolicyChecker.require {α : Type}
    (self : PermissionPolicyChecker) (action : String) :
    (Request → α → Response) → Request → α → Response :=
  user_passes_test (fun user => self.policy.user_has_permission user action)

def PermissionPolicyChecker.require_any {α : Type}
    (self : PermissionPolicyChecker) (actions : List String) :
    (Request → α → Response) → Request → α → Response :=
  user_passes_test (fun user => self.policy.user_has_any_permission user actions)

/-! ## Concrete fixtures for witnesses and counterexamples -/

/-- A profile opted in to all three notification kinds, preferring French. -/
def profAll : UserProfile :=
  { submitted_notifications := true
    approved_notifications := true
    rejected_notifications := true
    preferred_language := "fr" }

/-- An active submitter with an email address. -/
def uSubmitter : User :=
  { pk := 5, email := "u5@x.com", is_active := true, is_superuser := false,
    groups := [], profile := profAll }

/-- An inactive user with an email address, opted in. -/
def uInactive : User :=
  { pk := 6, email := "u6@x.com", is_active := false, is_superuser := false,
    groups := [], profile := profAll }

/-- Two active members of group 3. -/
def uPub7 : User :=
  { pk := 7, email := "u7@x.com", is_active := true, is_superuser := false,
    groups := [3], profile := profAll }

def uPub8 : User :=
  { pk := 8, email := "u8@x.com", is_active := true, is_superuser := false,
    groups := [3], profile := profAll }

/-- An active superuser belonging to no group. -/
def uSuper : User :=
  { pk := 9, email := "u9@x.com", is_active := true, is_superuser := true,
    groups := [], profile := profAll }

/-- A page with one ancestor (id 1). -/
def pageP : Page := { id := 10, ancestors := [1] }

/-- Group 3 may publish the ancestor page 1. -/
def grantPublish : GroupPagePermission :=
  { group := 3, permission_type := "publish", page := 1 }

def revA : PageRevision := { id := 1, page := pageP, user := uSubmitter }

def revInactive : PageRevision := { id := 2, page := pageP, user := uInactive }

def dbA : Database :=
  { users := [uSubmitter], group_page_permissions := [],
    page_revisions := [revA] }

def dbInactive : Database :=
  { users := [uInactive], group_page_permissions := [],
    page_revisions := [revInactive] }

def dbTwo : Database :=
  { users := [uPub7, uPub8], group_page_permissions := [grantPublish],
    page_revisions := [revA] }

def dbSuper : Database :=
  { users := [uSuper], group_page_permissions := [],
    page_revisions := [revA] }

/-- All settings absent. -/
def settingsNone : Settings :=
  { WAGTAILADMIN_NOTIFICATION_INCLUDE_SUPERUSERS := none
    WAGTAILADMIN_NOTIFICATION_USE_HTML := none
    WAGTAILADMIN_NOTIFICATION_FROM_EMAIL := none
    DEFAULT_FROM_EMAIL := none }

/-- HTML notifications enabled, other settings absent. -/
def settingsHtml : Settings :=
  { settingsNone with WAGTAILADMIN_NOTIFICATION_USE_HTML := some true }

/-- A renderer that always yields "S" and a transport that always succeeds. -/
def oraclesOk : Oracles :=
  { render := fun _ _ => some "S", deliver := fun _ => true }

/-- A renderer that raises on the approved-kind subject template. -/
def oraclesFailApprovedSubject : Oracles :=
  { render := fun t _ =>
      if t == "wagtailadmin/notifications/approved_subject.txt" then none
      else some "S"
    deliver := fun _ => true }

/-- A renderer that raises on the submitted-kind subject template. -/
def oraclesFailSubmittedSubject : Oracles :=
  { render := fun t _ =>
      if t == "wagtailadmin/notifications/submitted_subject.txt" then none
      else some "S"
    deliver := fun _ => true }

/-- The mail the fixture dispatcher sends to one address. -/
def mailS (addr : String) : Mail :=
  { subject := "S", message := "S", from_email := "webmaster@localhost",
    to_addresses := [addr], auto_submitted_header := "auto-generated",
    html_alternative := none }

/-! ## C8 and C10: sender-address resolution in `send_mail` -/

/-- C8: when `send_mail` is invoked without a sender address, the from
address follows the fixed precedence `WAGTAILADMIN_NOTIFICATION_FROM_EMAIL`
if present, else `DEFAULT_FROM_EMAIL` if present, else
`webmaster@localhost`. -/
theorem C8_from_email_precedence (s : Settings) (subject message : String)
    (recipient_list : List String) (html_message : Option String) :
    (∀ a, s.WAGTAILADMIN_NOTIFICATION_FROM_EMAIL = some a →
      (send_mail s subject message recipient_list none html_message).from_email
        = a) ∧
    (s.WAGTAILADMIN_NOTIFICATION_FROM_EMAIL = none →
      ∀ b, s.DEFAULT_FROM_EMAIL = some b →
        (send_mail s subject message recipient_list none html_message).from_email
          = b) ∧
    (s.WAGTAILADMIN_NOTIFICATION_FROM_EMAIL = none →
      s.DEFAULT_FROM_EMAIL = none →
        (send_mail s subject message recipient_list none html_message).from_email
          = "webmaster@localhost") := by
  refine ⟨fun a ha => ?_, fun h1 b hb => ?_, fun h1 h2 => ?_⟩ <;>
    simp [send_mail, *]

/-- Witness for C8: each link of the precedence chain at concrete settings. -/
theorem C8_from_email_precedence_witness :
    (send_mail { settingsNone with
        WAGTAILADMIN_NOTIFICATION_FROM_EMAIL := some "n@w.org" }
      "s" "m" ["r@x.com"] none none).from_email = "n@w.org" ∧
    (send_mail { settingsNone with DEFAULT_FROM_EMAIL := some "d@w.org" }
      "s" "m" ["r@x.com"] none none).from_email = "d@w.org" ∧
    (send_mail settingsNone "s" "m" ["r@x.com"] none none).from_email
      = "webmaster@localhost" :=
  ⟨(C8_from_email_precedence _ "s" "m" ["r@x.com"] none).1 "n@w.org" rfl,
   (C8_from_email_precedence _ "s" "m" ["r@x.com"] none).2.1 rfl "d@w.org" rfl,
   (C8_from_email_precedence _ "s" "m" ["r@x.com"] none).2.2 rfl rfl⟩

/-- C10 — a non-empty `from_email` argument bypasses the settings chain and
is used unchanged. -/
theorem C10_explicit_from_email_used (s : Settings) (subject message : String)
    (recipient_list : List String) (a : String) (html_message : Option String)
    (h : a ≠ "") :
    (send_mail s subject message recipient_list (some a)
      html_message).from_email = a := by
  simp [send_mail, h]

/-- Witness for C10 at a concrete sender, with both settings present and
different from the argument. -/
theorem C10_explicit_from_email_used_witness :
    (send_mail { settingsNone with
        WAGTAILADMIN_NOTIFICATION_FROM_EMAIL := some "n@w.org",
        DEFAULT_FROM_EMAIL := some "d@w.org" }
      "s" "m" ["r@x.com"] (some "me@w.org") none).from_email = "me@w.org" :=
  C10_explicit_from_email_used _ "s" "m" ["r@x.com"] "me@w.org" none
    (by decide)

/-! ## C9: `user_passes_test` gating -/

/-- C9: the wrapped view runs the underlying view with the original
arguments exactly when the test of `request.user` holds, and otherwise
answers `permission_denied(request)` independently of the view; the
derived decorators are `user_passes_test` of their respective tests. -/
theorem C9_user_passes_test_gating (α : Type) (test : AuthUser → Bool)
    (view_func : Request → α → Response) (request : Request) (args : α) :
    (test request.user = true →
      user_passes_test test view_func request args = view_func request args) ∧
    (test request.user = false →
      user_passes_test test view_func request args
        = permission_denied request) ∧
    (∀ permission_name,
      permission_required permission_name view_func request args
        = user_passes_test (fun user => user.has_perm permission_name)
            view_func request args) ∧
    (∀ perms,
      any_permission_required perms view_func request args
        = user_passes_test (fun user => perms.any (fun perm =>
            user.has_perm perm)) view_func request args) ∧
    (∀ (checker : PermissionPolicyChecker) (action : String),
      checker.require action view_func request args
        = user_passes_test (fun user =>
            checker.policy.user_has_permission user action)
            view_func request args) ∧
    (∀ (checker : PermissionPolicyChecker) (actions : List String),
      checker.require_any actions view_func request args
        = user_passes_test (fun user =>
            checker.policy.user_has_any_permission user actions)
            view_func request args) := by
  refine ⟨fun h => ?_, fun h => ?_, fun _ => rfl, fun _ => rfl,
    fun _ _ => rfl, fun _ _ => rfl⟩ <;> simp [user_passes_test, h]

/-- Witness for C9: a user holding permission p reaches the view, a user
without it gets the denied response. -/
theorem C9_user_passes_test_gating_witness :
    user_passes_test (fun u => u.has_perm "p")
        (fun _ n => Response.content n)
        { user := { perms := ["p"] }, is_ajax := false } 7
      = (fun (_ : Request) (n : Nat) => Response.content n)
          { user := { perms := ["p"] }, is_ajax := false } 7 ∧
    user_passes_test (fun u => u.has_perm "p")
        (fun _ n => Response.content n)
        { user := { perms := [] }, is_ajax := false } 7
      = permission_denied { user := { perms := [] }, is_ajax := false } :=
  ⟨(C9_user_passes_test_gating Nat (fun u => u.has_perm "p")
      (fun _ n => Response.content n)
      { user := { perms := ["p"] }, is_ajax := false } 7).1 (by decide),
   (C9_user_passes_test_gating Nat (fun u => u.has_perm "p")
      (fun _ n => Response.content n)
      { user := { perms := [] }, is_ajax := false } 7).2.1 (by decide)⟩

/-! ## C1 and C4: the per-recipient exception handler -/

/-- C1: the code violates the claim.  When the subject-template render
raises for the first filtered recipient, the handler of the per-recipient
`except Exception:` block formats the local `email_subject`, which has not
yet been assigned in this call, so the logging line itself raises
`UnboundLocalError` and `send_notification` raises past the revision
lookup instead of returning `false`. -/
theorem C1_handler_unbound_local_escapes :
    send_notification dbA settingsNone oraclesFailApprovedSubject 1
        "approved" 999 "en"
      = (Except.error PyError.UnboundLocalError,
          [Event.renderCall "wagtailadmin/notifications/approved_subject.txt"
            5 "fr"]) := by
  rfl

/-- C4: the code violates the no-early-abort part of the claim.  With two
filtered recipients, a subject-render failure for the first one raises
`UnboundLocalError` out of the loop: the second recipient (pk 8) is never
rendered for or sent to, and no boolean is returned. -/
theorem C4_first_failure_aborts_loop :
    send_notification dbTwo settingsNone oraclesFailSubmittedSubject 1
        "submitted" 999 "en"
      = (Except.error PyError.UnboundLocalError,
          [Event.resolverCall 10 "publish" true,
           Event.renderCall "wagtailadmin/notifications/submitted_subject.txt"
             7 "fr"]) := by
  rfl

/-! ## C2: rendering locale -/

/-- C2: counterexample to the claim as stated.  With HTML notifications
enabled, a recipient preferring French and the ambient locale English, the
HTML body template is rendered under the ambient locale "en" (the render
happens after the `with override(...)` block has restored the locale), not
under the recipient preferred language "fr". -/
theorem C2_html_rendered_outside_override :
    uSubmitter.profile.preferred_language = "fr" ∧
    Event.renderCall "wagtailadmin/notifications/approved.html" 5 "en" ∈
      (send_notification dbA settingsHtml oraclesOk 1 "approved" 999
        "en").2 ∧
    Event.renderCall "wagtailadmin/notifications/approved.html" 5 "fr" ∉
      (send_notification dbA settingsHtml oraclesOk 1 "approved" 999
        "en").2 := by
  refine ⟨rfl, ?_, ?_⟩ <;> decide

/-! ## C3: active-flag filtering -/

/-- C3: counterexample to the claim as stated.  For the approved kind the
recipient is the submitter of the revision with no check of the active
flag: the inactive user u6 receives a mail-transport call. -/
theorem C3_inactive_submitter_is_sent_to :
    uInactive.is_active = false ∧
    Event.transportCall (mailS "u6@x.com") ∈
      (send_notification dbInactive settingsNone oraclesOk 2 "approved" 999
        "en").2 := by
  refine ⟨rfl, ?_⟩
  decide

/-- Every user of a `dedupByPkAux` result occurs in the input list. -/
theorem mem_of_mem_dedupByPkAux {u : User} :
    ∀ (seen : List Nat) (l : List User), u ∈ dedupByPkAux seen l → u ∈ l := by
  intro seen l
  induction l generalizing seen with
  | nil =>
    intro h
    simp [dedupByPkAux] at h
  | cons a rest ih =>
    intro h
    by_cases hc : seen.contains a.pk
    · simp only [dedupByPkAux, hc, if_true] at h
      exact List.mem_cons_of_mem _ (ih _ h)
    · simp only [dedupByPkAux, hc, if_false] at h
      rcases List.mem_cons.mp h with h | h
      · exact h ▸ List.mem_cons_self _ _
      · exact List.mem_cons_of_mem _ (ih _ h)

/-- C3 (amended): the permission-based resolver, used by the submitted
kind, never returns a user whose active flag is unset; the approved and
rejected kinds notify the submitter with no active-flag check (see the
counterexample). -/
theorem C3_resolver_returns_active_only (db : Database) (page : Page)
    (permission_type : String) (include_superusers : Bool) (u : User)
    (h : u ∈ users_with_page_permission db page permission_type
      include_superusers) :
    u.is_active = true := by
  have h1 := mem_of_mem_dedupByPkAux _ _ h
  rw [List.mem_filter] at h1
  have h2 := h1.1
  rw [List.mem_filter] at h2
  exact h2.2

/-- Witness for C3 (amended): a concrete member of a resolver result is
active. -/
theorem C3_resolver_returns_active_only_witness : uPub7.is_active = true :=
  C3_resolver_returns_active_only dbTwo pageP "publish" true uPub7 (by decide)

/-! ## C5: unrecognized notification kind -/

/-- C5: once the revision lookup has succeeded, a kind outside
submitted/rejected/approved makes `send_notification` return `false` with
an empty collaborator trace: no resolver query, no render, no transport
call, and no exception. -/
theorem C5_unrecognized_kind_short_circuit (db : Database) (s : Settings)
    (os : Oracles) (page_revision_id : Nat) (notification : String)
    (excluded_user_id : Nat) (initial_locale : String) (rev : PageRevision)
    (hfind : db.page_revisions.find? (fun r => r.id == page_revision_id)
      = some rev)
    (h1 : notification ≠ "submitted") (h2 : notification ≠ "rejected")
    (h3 : notification ≠ "approved") :
    send_notification db s os page_revision_id notification excluded_user_id
      initial_locale = (Except.ok false, []) := by
  simp [send_notification, hfind, h1, h2, h3]

/-- Witness for C5 at the kind "frobnicate". -/
theorem C5_unrecognized_kind_short_circuit_witness :
    send_notification dbA settingsNone oraclesOk 1 "frobnicate" 999 "en"
      = (Except.ok false, []) :=
  C5_unrecognized_kind_short_circuit dbA settingsNone oraclesOk 1
    "frobnicate" 999 "en" revA (by decide) (by decide) (by decide)
    (by decide)

/-! ## C6: empty filtered recipient set -/

/-- C6: when the filtered recipient list is empty, `send_notification`
returns `true` with no render, transport or log event: for the
rejected/approved kinds the whole trace is empty, and for the submitted
kind it holds only the resolver query. -/
theorem C6_empty_filtered_set_vacuous_true (db : Database) (s : Settings)
    (os : Oracles) (page_revision_id : Nat) (excluded_user_id : Nat)
    (initial_locale : String) (rev : PageRevision)
    (hfind : db.page_revisions.find? (fun r => r.id == page_revision_id)
      = some rev) :
    (∀ notification,
      (notification = "rejected" ∨ notification = "approved") →
      email_recipients_of [rev.user] notification excluded_user_id = [] →
      send_notification db s os page_revision_id notification
        excluded_user_id initial_locale = (Except.ok true, [])) ∧
    (email_recipients_of
        (users_with_page_permission db rev.page "publish"
          (s.WAGTAILADMIN_NOTIFICATION_INCLUDE_SUPERUSERS.getD true))
        "submitted" excluded_user_id = [] →
      send_notification db s os page_revision_id "submitted"
          excluded_user_id initial_locale
        = (Except.ok true,
            [Event.resolverCall rev.page.id "publish"
              (s.WAGTAILADMIN_NOTIFICATION_INCLUDE_SUPERUSERS.getD true)])) := by
  constructor
  · intro notification hkind hempty
    rcases hkind with h | h <;> subst h <;>
      simp [send_notification, hfind, hempty]
  · intro hempty
    simp [send_notification, hfind, hempty]

/-- Witness for C6: the sole resolved recipient of an approved event is the
excluded user (vacuous success, no events), and a submitted event whose
resolver yields nobody returns true with only the resolver query traced. -/
theorem C6_empty_filtered_set_vacuous_true_witness :
    send_notification dbA settingsNone oraclesOk 1 "approved" 5 "en"
      = (Except.ok true, []) ∧
    send_notification dbA settingsNone oraclesOk 1 "submitted" 999 "en"
      = (Except.ok true, [Event.resolverCall 10 "publish" true]) :=
  ⟨(C6_empty_filtered_set_vacuous_true dbA settingsNone oraclesOk 1 5 "en"
      revA (by decide)).1 "approved" (Or.inr rfl) (by decide),
   (C6_empty_filtered_set_vacuous_true dbA settingsNone oraclesOk 1 999 "en"
      revA (by decide)).2 (by decide)⟩

/-- C2 (amended): one loop iteration restores the ambient locale on the
success and the failure path alike, and every render it performs happens
either under the recipient preferred language (the subject and body
templates, inside the `override` block) or under the ambient locale (the
HTML body template, rendered after the block has exited). -/
theorem C2_render_locale_discipline (s : Settings) (os : Oracles)
    (notification : String) (recipient : User) (st : DispatchState) :
    (processRecipient s os notification recipient st).1.locale = st.locale ∧
    (∀ template pk loc,
      Event.renderCall template pk loc ∈
        (processRecipient s os notification recipient st).1.events →
      Event.renderCall template pk loc ∈ st.events ∨
      ((template = "wagtailadmin/notifications/" ++ notification
          ++ "_subject.txt" ∨
        template = "wagtailadmin/notifications/" ++ notification ++ ".txt") ∧
        loc = recipient.profile.preferred_language) ∨
      (template = "wagtailadmin/notifications/" ++ notification ++ ".html" ∧
        loc = st.locale)) := by
  simp only [processRecipient, recipientTryBody, withOverride, renderStep]
  cases hsub : os.render
      ("wagtailadmin/notifications/" ++ notification ++ "_subject.txt")
      recipient.pk with
  | none =>
    cases hes : st.email_subject with
    | none =>
      refine ⟨by simp [*], ?_⟩
      intro template pk loc hmem
      simp [*] at hmem
      tauto
    | some subj0 =>
      refine ⟨by simp [*], ?_⟩
      intro template pk loc hmem
      simp [*] at hmem
      tauto
  | some subj =>
    cases htext : os.render
        ("wagtailadmin/notifications/" ++ notification ++ ".txt")
        recipient.pk with
    | none =>
      refine ⟨by simp [*], ?_⟩
      intro template pk loc hmem
      simp [*] at hmem
      tauto
    | some content =>
      cases hflag : s.WAGTAILADMIN_NOTIFICATION_USE_HTML.getD false with
      | false =>
        cases hdel : os.deliver (send_mail s (pyStrip subj) (pyStrip content)
            [recipient.email] none none) with
        | true =>
          refine ⟨by simp [*], ?_⟩
          intro template pk loc hmem
          simp [*] at hmem
          tauto
        | false =>
          refine ⟨by simp [*], ?_⟩
          intro template pk loc hmem
          simp [*] at hmem
          tauto
      | true =>
        cases hhtml : os.render
            ("wagtailadmin/notifications/" ++ notification ++ ".html")
            recipient.pk with
        | none =>
          refine ⟨by simp [*], ?_⟩
          intro template pk loc hmem
          simp [*] at hmem
          tauto
        | some h =>
          cases hdel : os.deliver (send_mail s (pyStrip subj)
              (pyStrip content) [recipient.email] none (some h)) with
          | true =>
            refine ⟨by simp [*], ?_⟩
            intro template pk loc hmem
            simp [*] at hmem
            tauto
          | false =>
            refine ⟨by simp [*], ?_⟩
            intro template pk loc hmem
            simp [*] at hmem
            tauto

/-- An ambient dispatcher state with locale "en" and an empty trace. -/
def stateEn : DispatchState :=
  { locale := "en", events := [], sent_count := 0, email_subject := none }

/-- Witness for C2 (amended): a successful iteration for the French-
preferring submitter restores the ambient locale "en", and its subject
render is covered by the subject-or-body disjunct at locale "fr". -/
theorem C2_render_locale_discipline_witness :
    (processRecipient settingsNone oraclesOk "approved" uSubmitter
      stateEn).1.locale = stateEn.locale ∧
    (Event.renderCall "wagtailadmin/notifications/approved_subject.txt" 5
        "fr" ∈ stateEn.events ∨
      (("wagtailadmin/notifications/approved_subject.txt"
          = "wagtailadmin/notifications/" ++ "approved" ++ "_subject.txt" ∨
        "wagtailadmin/notifications/approved_subject.txt"
          = "wagtailadmin/notifications/" ++ "approved" ++ ".txt") ∧
        "fr" = uSubmitter.profile.preferred_language) ∨
      ("wagtailadmin/notifications/approved_subject.txt"
          = "wagtailadmin/notifications/" ++ "approved" ++ ".html" ∧
        "fr" = stateEn.locale)) :=
  ⟨(C2_render_locale_discipline settingsNone oraclesOk "approved" uSubmitter
      stateEn).1,
   (C2_render_locale_discipline settingsNone oraclesOk "approved" uSubmitter
      stateEn).2 "wagtailadmin/notifications/approved_subject.txt" 5 "fr"
      (by decide)⟩

/-! ## C7: resolver deduplication and superuser inclusion -/

/-- The pks of a `dedupByPkAux` result are pairwise distinct and avoid the
accumulator. -/
theorem dedupByPkAux_pk_spec :
    ∀ (l : List User) (seen : List Nat),
      ((dedupByPkAux seen l).map User.pk).Nodup ∧
      ∀ u ∈ dedupByPkAux seen l, seen.contains u.pk = false := by
  intro l
  induction l with
  | nil =>
    intro seen
    simp [dedupByPkAux]
  | cons a rest ih =>
    intro seen
    by_cases hc : seen.contains a.pk
    · have hcm : a.pk ∈ seen := by simpa using hc
      have hred : dedupByPkAux seen (a :: rest) = dedupByPkAux seen rest := by
        simp [dedupByPkAux, hcm]
      rw [hred]
      exact ih seen
    · have h2 := ih (a.pk :: seen)
      have hcm : a.pk ∉ seen := by simpa using hc
      have hred : dedupByPkAux seen (a :: rest)
          = a :: dedupByPkAux (a.pk :: seen) rest := by
        simp [dedupByPkAux, hcm]
      rw [hred]
      constructor
      · simp only [List.map_cons, List.nodup_cons]
        refine ⟨fun hmem => ?_, h2.1⟩
        rcases List.mem_map.mp hmem with ⟨v, hv, hpk⟩
        have hv2 := h2.2 v hv
        rw [hpk] at hv2
        simp at hv2
      · intro u hu
        rcases List.mem_cons.mp hu with h | h
        · subst h
          simpa using hc
        · have hu2 := h2.2 u h
          simp at hu2
          simpa using hu2.2

/-- A user of the input list whose pk is globally unique and not yet seen
survives `dedupByPkAux`. -/
theorem mem_dedupByPkAux_of_mem :
    ∀ (l : List User) (seen : List Nat) (u : User),
      (l.map User.pk).Nodup → u ∈ l → seen.contains u.pk = false →
      u ∈ dedupByPkAux seen l := by
  intro l
  induction l with
  | nil =>
    intro seen u _ hu _
    simp at hu
  | cons a rest ih =>
    intro seen u hnd hu hs
    simp only [List.map_cons, List.nodup_cons] at hnd
    rcases List.mem_cons.mp hu with h | h
    · subst h
      have hs2 : u.pk ∉ seen := by simpa using hs
      simp [dedupByPkAux, hs2]
    · by_cases hc : seen.contains a.pk
      · have hcm : a.pk ∈ seen := by simpa using hc
        have hred : dedupByPkAux seen (a :: rest) = dedupByPkAux seen rest := by
          simp [dedupByPkAux, hcm]
        rw [hred]
        exact ih seen u hnd.2 h hs
      · have hcm : a.pk ∉ seen := by simpa using hc
        have hred : dedupByPkAux seen (a :: rest)
            = a :: dedupByPkAux (a.pk :: seen) rest := by
          simp [dedupByPkAux, hcm]
        rw [hred]
        refine List.mem_cons_of_mem _ (ih (a.pk :: seen) u hnd.2 h ?_)
        have hne : u.pk ≠ a.pk := by
          intro he
          exact hnd.1 (he ▸ List.mem_map_of_mem User.pk h)
        simp [hne]
        simpa using hs

/-- C7: the resolver result carries no duplicate user identities, and an
active superuser covered by no matching group grant belongs to it exactly
when `include_superusers` is set. -/
theorem C7_resolver_nodup_and_superuser_iff (db : Database) (page : Page)
    (permission_type : String) (include_superusers : Bool)
    (hdb : (db.users.map User.pk).Nodup) :
    ((users_with_page_permission db page permission_type
        include_superusers).map User.pk).Nodup ∧
    (∀ u, u ∈ db.users → u.is_active = true → u.is_superuser = true →
      has_matching_group_grant db page permission_type u = false →
      (u ∈ users_with_page_permission db page permission_type
          include_superusers ↔ include_superusers = true)) := by
  constructor
  · exact (dedupByPkAux_pk_spec _ []).1
  · intro u humem hact hsup hgrant
    constructor
    · intro hin
      have h1 := mem_of_mem_dedupByPkAux _ _ hin
      rw [List.mem_filter] at h1
      have h2 := h1.2
      simp [hgrant, hsup] at h2
      exact h2
    · intro hincl
      subst hincl
      apply mem_dedupByPkAux_of_mem
      · have hsub :
            List.Sublist
              (((db.users.filter (fun u => u.is_active)).filter
                  (fun u => has_matching_group_grant db page permission_type u
                    || (true && u.is_superuser))).map User.pk)
              (db.users.map User.pk) :=
          List.Sublist.map User.pk
            (List.Sublist.trans (List.filter_sublist _) (List.filter_sublist _))
        exact hdb.sublist hsub
      · rw [List.mem_filter]
        refine ⟨List.mem_filter.mpr ⟨humem, by simp [hact]⟩, ?_⟩
        simp [hgrant, hsup]
      · simp

/-- Witness for C7: a database with one active superuser and no grants
yields a duplicate-free result containing the superuser when the flag is
set. -/
theorem C7_resolver_nodup_and_superuser_iff_witness :
    ((users_with_page_permission dbSuper pageP "publish" true).map
      User.pk).Nodup ∧
    uSuper ∈ users_with_page_permission dbSuper pageP "publish" true :=
  ⟨(C7_resolver_nodup_and_superuser_iff dbSuper pageP "publish" true
      (by decide)).1,
   ((C7_resolver_nodup_and_superuser_iff dbSuper pageP "publish" true
      (by decide)).2 uSuper (by decide) rfl rfl (by decide)).mpr rfl⟩

end Wagtail
